import Mathlib

/-!
Verification of the outbound webhook notification dispatcher of the
Smart PR Creator extension, shallowly embedded from
`src/services/webhookService.ts`.

Modelling conventions:
- JavaScript millisecond clocks (`Date.now()`) are threaded explicitly as a
  `Nat` parameter; `setTimeout` waits advance the clock.
- The HTTP transport is an oracle `NetEnv` giving, per attempt index, the
  outcome of `sendHttpRequest` (resolved or rejected with an error string)
  and the elapsed time of that attempt.
- `toLocaleString` on dates is an environment function `locale`.
- TypeScript optional numeric fields are `Option Nat`; the `x || d` default
  idiom maps absent and `0` to the default `d`.
- The `platform` field is typed in TS as a string union; at runtime it is a
  plain string and the renderer `switch` has a `default` arm, so it is
  modelled as `String`.
-/

namespace WebhookSpec

/-- Event kinds, `WebhookEvent` in the source. -/
inductive WebhookEvent where
  | pr_created
  | pr_updated
  | pr_merged
  | pr_closed
deriving DecidableEq

/-- The JSON key of an event kind, as serialized by `JSON.stringify`. -/
def WebhookEvent.key : WebhookEvent → String
  | .pr_created => "pr_created"
  | .pr_updated => "pr_updated"
  | .pr_merged => "pr_merged"
  | .pr_closed => "pr_closed"

/-- `WebhookConfig` from the source (lines 5-13). It has exactly these
fields; in particular there is no custom-headers field. -/
structure WebhookConfig where
  name : String
  url : String
  enabled : Bool
  events : List WebhookEvent
  platform : String
  retryAttempts : Option Nat
  timeout : Option Nat
deriving DecidableEq

/-- The `pullRequest` part of `WebhookPayload` (lines 19-32). -/
structure PullRequestInfo where
  id : String
  title : String
  description : String
  url : String
  author : String
  sourceBranch : String
  targetBranch : String
  repository : String
  aiGenerated : Bool
  modelUsed : Option String
  filesChanged : Nat
  commits : Nat
deriving DecidableEq

/-- The `metadata` part of `WebhookPayload` (lines 34-38). -/
structure PayloadMetadata where
  extensionVersion : String
  workspaceFolder : String
  vsCodeVersion : String
deriving DecidableEq

/-- `WebhookPayload` from the source (lines 17-39). -/
structure WebhookPayload where
  event : WebhookEvent
  pullRequest : PullRequestInfo
  timestamp : String
  metadata : PayloadMetadata
deriving DecidableEq

/-- `TeamsFact` (lines 58-61). -/
structure TeamsFact where
  name : String
  value : String
deriving DecidableEq

/-- `TeamsSection` (lines 50-56). -/
structure TeamsSection where
  activityTitle : String
  activitySubtitle : Option String
  activityImage : Option String
  facts : List TeamsFact
  markdown : Option Bool
deriving DecidableEq

/-- `TeamsAction` (lines 63-70); the fixed literals `"@type": "OpenUri"` and
`targets[0].os = "default"` are emitted by the JSON encoder below. -/
structure TeamsAction where
  name : String
  uri : String
deriving DecidableEq

/-- `TeamsMessage` (lines 41-48); the fixed `"@type"`/`"@context"` literals
are emitted by the JSON encoder below. -/
structure TeamsMessage where
  themeColor : String
  summary : String
  sections : List TeamsSection
  potentialAction : Option (List TeamsAction)
deriving DecidableEq

/-- One field of a Slack attachment (`createSlackMessage`, lines 350-366). -/
structure SlackField where
  title : String
  value : String
  short : Bool
deriving DecidableEq

/-- A Slack attachment (lines 345-368). -/
structure SlackAttachment where
  color : String
  title : String
  titleLink : String
  fields : List SlackField
deriving DecidableEq

/-- The Slack message shape returned by `createSlackMessage` (lines 343-369). -/
structure SlackMessage where
  text : String
  attachments : List SlackAttachment
deriving DecidableEq

/-- One field of a Discord embed (lines 392-408). -/
structure DiscordField where
  name : String
  value : String
  inlineFlag : Bool
deriving DecidableEq

/-- A Discord embed (lines 386-411). -/
structure DiscordEmbed where
  title : String
  description : String
  color : Nat
  url : String
  fields : List DiscordField
  timestamp : String
deriving DecidableEq

/-- The Discord message shape returned by `createDiscordMessage` (lines 385-412). -/
structure DiscordMessage where
  embeds : List DiscordEmbed
deriving DecidableEq

/-- `WebhookHistoryItem` (lines 72-81). `id` is `Date.now().toString()` and
`timestamp` is the ISO rendering of the same instant; both are modelled from
the threaded millisecond clock. -/
structure WebhookHistoryItem where
  id : String
  webhookName : String
  event : WebhookEvent
  timestamp : Nat
  success : Bool
  responseTime : Option Nat
  error : Option String
  url : String
deriving DecidableEq

/-- Event colors of the Teams card (lines 244-249). -/
def teamsColor : WebhookEvent → String
  | .pr_created => "0078d4"
  | .pr_updated => "ffa500"
  | .pr_merged => "107c10"
  | .pr_closed => "d13438"

/-- Event titles of the Teams card (lines 251-256). -/
def teamsEventTitle : WebhookEvent → String
  | .pr_created => "🚀 New Pull Request Created"
  | .pr_updated => "📝 Pull Request Updated"
  | .pr_merged => "✅ Pull Request Merged"
  | .pr_closed => "❌ Pull Request Closed"

/-- JavaScript truthiness of an optional string field: `undefined` and the
empty string are falsy. -/
def strOptTruthy : Option String → Bool
  | none => false
  | some s => s ≠ ""

/-- The fixed activity image URL of the Teams card (line 283). -/
def teamsActivityImage : String :=
  "https://raw.githubusercontent.com/microsoft/vscode/main/resources/win32/code_70x70.png"

/-- JavaScript `String.prototype.trim`: strip leading and trailing
whitespace. -/
def jsTrim (s : String) : String :=
  ⟨((s.data.dropWhile Char.isWhitespace).reverse.dropWhile
      Char.isWhitespace).reverse⟩

/-- `createTeamsMessage` (lines 240-321), with `new Date(ts).toLocaleString()`
abstracted as the environment function `locale`. -/
def createTeamsMessage (locale : String → String) (payload : WebhookPayload) :
    TeamsMessage :=
  let pr := payload.pullRequest
  let baseFacts : List TeamsFact :=
    [⟨"Repository", pr.repository⟩,
     ⟨"Branch", pr.sourceBranch ++ " → " ++ pr.targetBranch⟩,
     ⟨"Author", pr.author⟩,
     ⟨"Files Changed", toString pr.filesChanged⟩,
     ⟨"Commits", toString pr.commits⟩,
     ⟨"Created", locale payload.timestamp⟩]
  let facts : List TeamsFact :=
    if pr.aiGenerated && strOptTruthy pr.modelUsed then
      baseFacts ++ [⟨"🤖 AI Generated", "Yes (" ++ pr.modelUsed.getD "" ++ ")"⟩]
    else baseFacts
  let sections1 : List TeamsSection :=
    [⟨teamsEventTitle payload.event, some pr.title, some teamsActivityImage,
      facts, some true⟩]
  let sections2 : List TeamsSection :=
    if pr.description ≠ "" ∧ 0 < (jsTrim pr.description).length then
      let description :=
        if 300 < pr.description.length then pr.description.take 300 ++ "..."
        else pr.description
      sections1 ++ [⟨"📋 Description", some description, none, [], some true⟩]
    else sections1
  { themeColor := teamsColor payload.event,
    summary := teamsEventTitle payload.event ++ ": " ++ pr.title,
    sections := sections2,
    potentialAction :=
      if pr.url ≠ "" then some [⟨"View Pull Request", pr.url⟩] else none }

/-- Event emojis of the Slack message (lines 329-334). -/
def slackEmoji : WebhookEvent → String
  | .pr_created => "🚀"
  | .pr_updated => "📝"
  | .pr_merged => "✅"
  | .pr_closed => "❌"

/-- Slack attachment colors (lines 336-341). -/
def slackColor : WebhookEvent → String
  | .pr_created => "good"
  | .pr_updated => "warning"
  | .pr_merged => "good"
  | .pr_closed => "danger"

/-- `event.replace(..., ...)` applied to the event key drops the leading
tag and yields the bare kind name. -/
def WebhookEvent.shortName : WebhookEvent → String
  | .pr_created => "created"
  | .pr_updated => "updated"
  | .pr_merged => "merged"
  | .pr_closed => "closed"

/-- `createSlackMessage` (lines 326-370). -/
def createSlackMessage (payload : WebhookPayload) : SlackMessage :=
  let pr := payload.pullRequest
  { text := slackEmoji payload.event ++ " Pull Request " ++ payload.event.shortName,
    attachments :=
      [{ color := slackColor payload.event,
         title := pr.title,
         titleLink := pr.url,
         fields :=
           [⟨"Repository", pr.repository, true⟩,
            ⟨"Author", pr.author, true⟩,
            ⟨"Branch", pr.sourceBranch ++ " → " ++ pr.targetBranch, false⟩] }] }

/-- Discord embed colors (lines 378-383). -/
def discordColor : WebhookEvent → Nat
  | .pr_created => 3447003
  | .pr_updated => 16776960
  | .pr_merged => 3066993
  | .pr_closed => 15158332

/-- `createDiscordMessage` (lines 375-413). -/
def createDiscordMessage (payload : WebhookPayload) : DiscordMessage :=
  let pr := payload.pullRequest
  { embeds :=
      [{ title := "Pull Request " ++ payload.event.shortName,
         description := pr.title,
         color := discordColor payload.event,
         url := pr.url,
         fields :=
           [⟨"Repository", pr.repository, true⟩,
            ⟨"Author", pr.author, true⟩,
            ⟨"Branch", pr.sourceBranch ++ " → " ++ pr.targetBranch, false⟩],
         timestamp := payload.timestamp }] }

/-- JSON values, target of `JSON.stringify`. -/
inductive Json where
  | null : Json
  | bool (b : Bool) : Json
  | num (n : Int) : Json
  | str (s : String) : Json
  | arr (elements : List Json) : Json
  | obj (fields : List (String × Json)) : Json

/-- JSON string escaping for the characters that can occur here. -/
def Json.escapeChar (c : Char) : String :=
  if c = '"' then "\\\""
  else if c = '\\' then "\\\\"
  else if c = '\n' then "\\n"
  else if c = '\r' then "\\r"
  else if c = '\t' then "\\t"
  else String.singleton c

/-- Quote a string as a JSON string literal. -/
def Json.quote (s : String) : String :=
  "\"" ++ String.join (s.data.map Json.escapeChar) ++ "\""

mutual

/-- Serialize a JSON value, as `JSON.stringify` does. -/
def Json.render : Json → String
  | .null => "null"
  | .bool b => if b then "true" else "false"
  | .num n => toString n
  | .str s => Json.quote s
  | .arr es => "[" ++ Json.renderItems es ++ "]"
  | .obj fs => "\x7b" ++ Json.renderFields fs ++ "\x7d"

/-- Comma-separated rendering of array elements. -/
def Json.renderItems : List Json → String
  | [] => ""
  | [j] => Json.render j
  | j :: rest => Json.render j ++ "," ++ Json.renderItems rest

/-- Comma-separated rendering of object fields. -/
def Json.renderFields : List (String × Json) → String
  | [] => ""
  | [(n, j)] => Json.quote n ++ ":" ++ Json.render j
  | (n, j) :: rest =>
      Json.quote n ++ ":" ++ Json.render j ++ "," ++ Json.renderFields rest

end

/-- `JSON.stringify` of the raw `pullRequest` object; an `undefined`
`modelUsed` key is omitted, as `JSON.stringify` does. -/
def PullRequestInfo.toJson (pr : PullRequestInfo) : Json :=
  .obj
    ([("id", .str pr.id), ("title", .str pr.title),
      ("description", .str pr.description), ("url", .str pr.url),
      ("author", .str pr.author), ("sourceBranch", .str pr.sourceBranch),
      ("targetBranch", .str pr.targetBranch),
      ("repository", .str pr.repository),
      ("aiGenerated", .bool pr.aiGenerated)]
     ++ (match pr.modelUsed with
         | some m => [("modelUsed", .str m)]
         | none => [])
     ++ [("filesChanged", .num pr.filesChanged),
         ("commits", .num pr.commits)])

/-- `JSON.stringify` of the raw payload: the generic passthrough body. -/
def payloadJson (p : WebhookPayload) : Json :=
  .obj
    [("event", .str p.event.key),
     ("pullRequest", p.pullRequest.toJson),
     ("timestamp", .str p.timestamp),
     ("metadata",
      .obj [("extensionVersion", .str p.metadata.extensionVersion),
            ("workspaceFolder", .str p.metadata.workspaceFolder),
            ("vsCodeVersion", .str p.metadata.vsCodeVersion)])]

/-- JSON of a Teams fact. -/
def TeamsFact.toJson (f : TeamsFact) : Json :=
  .obj [("name", .str f.name), ("value", .str f.value)]

/-- JSON of an optional string field: omitted when `undefined`. -/
def optStrField (key : String) : Option String → List (String × Json)
  | some s => [(key, .str s)]
  | none => []

/-- JSON of a Teams section. -/
def TeamsSection.toJson (s : TeamsSection) : Json :=
  .obj
    ([("activityTitle", .str s.activityTitle)]
     ++ optStrField "activitySubtitle" s.activitySubtitle
     ++ optStrField "activityImage" s.activityImage
     ++ [("facts", .arr (s.facts.map TeamsFact.toJson))]
     ++ (match s.markdown with
         | some b => [("markdown", .bool b)]
         | none => []))

/-- JSON of a Teams action, with the fixed type and OS literals. -/
def TeamsAction.toJson (a : TeamsAction) : Json :=
  .obj
    [("@type", .str "OpenUri"), ("name", .str a.name),
     ("targets", .arr [.obj [("os", .str "default"), ("uri", .str a.uri)]])]

/-- JSON of a Teams message, with the fixed schema literals. -/
def TeamsMessage.toJson (m : TeamsMessage) : Json :=
  .obj
    ([("@type", .str "MessageCard"),
      ("@context", .str "http://schema.org/extensions"),
      ("themeColor", .str m.themeColor), ("summary", .str m.summary),
      ("sections", .arr (m.sections.map TeamsSection.toJson))]
     ++ (match m.potentialAction with
         | some acts => [("potentialAction", .arr (acts.map TeamsAction.toJson))]
         | none => []))

/-- JSON of a Slack message. -/
def SlackMessage.toJson (m : SlackMessage) : Json :=
  .obj
    [("text", .str m.text),
     ("attachments",
      .arr (m.attachments.map (fun a =>
        .obj [("color", .str a.color), ("title", .str a.title),
              ("title_link", .str a.titleLink),
              ("fields",
               .arr (a.fields.map (fun f =>
                 .obj [("title", .str f.title), ("value", .str f.value),
                       ("short", .bool f.short)])))])))]

/-- JSON of a Discord message. -/
def DiscordMessage.toJson (m : DiscordMessage) : Json :=
  .obj
    [("embeds",
      .arr (m.embeds.map (fun e =>
        .obj [("title", .str e.title), ("description", .str e.description),
              ("color", .num e.color), ("url", .str e.url),
              ("fields",
               .arr (e.fields.map (fun f =>
                 .obj [("name", .str f.name), ("value", .str f.value),
                       ("inline", .bool f.inlineFlag)]))),
              ("timestamp", .str e.timestamp)])))]

/-- The body selection `switch` of `sendToWebhook` (lines 194-206): the three
known platform kinds get their renderer, anything else falls through to
`JSON.stringify(payload)`. -/
def bodyFor (platform : String) (locale : String → String)
    (payload : WebhookPayload) : String :=
  if platform = "teams" then (createTeamsMessage locale payload).toJson.render
  else if platform = "slack" then (createSlackMessage payload).toJson.render
  else if platform = "discord" then (createDiscordMessage payload).toJson.render
  else (payloadJson payload).render

/-- The options object built by `sendHttpRequest` (lines 424-435). The
source splits `url` into hostname, port and path via `new URL`; the split is
kept abstract here and the whole URL retained. The headers are exactly the
three literals of the source. -/
structure RequestOptions where
  url : String
  method : String
  headers : List (String × String)
  timeout : Nat
deriving DecidableEq

/-- Build the request options of one HTTP attempt (lines 424-435). -/
def sendHttpRequestOptions (url : String) (body : String) (timeout : Nat) :
    RequestOptions :=
  { url := url,
    method := "POST",
    headers :=
      [("Content-Type", "application/json"),
       ("Content-Length", toString body.utf8ByteSize),
       ("User-Agent", "Smart-PR-Creator-Extension")],
    timeout := timeout }

/-- Build a history item as `addHistoryEntry` does (lines 132-141), with the
creation clock standing in for `Date.now()` and the ISO timestamp. -/
def mkHistoryItem (now : Nat) (webhookName : String) (event : WebhookEvent)
    (success : Bool) (url : String) (responseTime : Option Nat)
    (error : Option String) : WebhookHistoryItem :=
  { id := toString now, webhookName := webhookName, event := event,
    timestamp := now, success := success, responseTime := responseTime,
    error := error, url := url }

/-- `addHistoryEntry` (lines 124-149): prepend, then cap at 100 entries. -/
def addHistoryEntry (history : List WebhookHistoryItem)
    (item : WebhookHistoryItem) : List WebhookHistoryItem :=
  let h := item :: history
  if 100 < h.length then h.take 100 else h

/-- `getWebhookHistory` (lines 569-571): a defensive copy of the history. -/
def getWebhookHistory (history : List WebhookHistoryItem) :
    List WebhookHistoryItem :=
  history

/-- The network oracle: outcome and elapsed milliseconds of the HTTP request
issued on each attempt (attempts are 1-indexed). -/
structure NetEnv where
  outcome : Nat → Except String Unit
  duration : Nat → Nat

/-- Everything observable about one `sendToWebhook` run: the requests
issued, attempt count, backoff delays, history entries recorded, warnings
shown, log lines, final clock, and the returned/thrown result. -/
structure DeliveryResult where
  requests : List RequestOptions
  attempts : Nat
  delays : List Nat
  recorded : List WebhookHistoryItem
  warnings : List String
  logs : List String
  clock : Nat
  outcome : Except String Unit

/-- `webhook.retryAttempts || 3`: absent and `0` are falsy. -/
def effectiveRetries : Option Nat → Nat
  | none => 3
  | some 0 => 3
  | some (n + 1) => n + 1

/-- `webhook.timeout || 10000`: absent and `0` are falsy. -/
def effectiveTimeout : Option Nat → Nat
  | none => 10000
  | some 0 => 10000
  | some (n + 1) => n + 1

/-- Success log line (line 211). -/
def successLog (name : String) (attempt responseTime : Nat) : String :=
  "✅ Webhook sent successfully: " ++ name ++ " (attempt " ++
    toString attempt ++ ", " ++ toString responseTime ++ "ms)"

/-- Per-attempt failure log line (line 218). -/
def attemptFailLog (attempt maxRetries : Nat) (name e : String) : String :=
  "❌ Attempt " ++ toString attempt ++ "/" ++ toString maxRetries ++
    " failed for " ++ name ++ ": " ++ e

/-- The user-visible warning on exhausted retries (lines 225-227). -/
def exhaustedWarning (name : String) (maxRetries : Nat) : String :=
  "Failed to send webhook to " ++ name ++ " after " ++
    toString maxRetries ++ " attempts"

/-- The retry loop of `sendToWebhook` (lines 190-234). The three trailing
arguments are the remaining loop iterations (for termination; entered with
`maxRetries`, and `attempt + fuel = maxRetries + 1` throughout, so the
fuel-exhausted base case is the unreachable fall-through of the `for`),
the 1-indexed attempt counter, and the current clock. -/
def deliveryLoop (w : WebhookConfig) (payload : WebhookPayload) (env : NetEnv)
    (locale : String → String) (maxRetries timeout startTime : Nat) :
    Nat → Nat → Nat → DeliveryResult
  | 0, _attempt, clock =>
    { requests := [], attempts := 0, delays := [], recorded := [],
      warnings := [], logs := [], clock := clock, outcome := .ok () }
  | fuel + 1, attempt, clock =>
    let body := bodyFor w.platform locale payload
    let req := sendHttpRequestOptions w.url body timeout
    let clock1 := clock + env.duration attempt
    match env.outcome attempt with
    | .ok _ =>
      let responseTime := clock1 - startTime
      { requests := [req], attempts := 1, delays := [],
        recorded :=
          [mkHistoryItem clock1 w.name payload.event true w.url
            (some responseTime) none],
        warnings := [],
        logs := [successLog w.name attempt responseTime],
        clock := clock1, outcome := .ok () }
    | .error e =>
      if attempt = maxRetries then
        let responseTime := clock1 - startTime
        { requests := [req], attempts := 1, delays := [],
          recorded :=
            [mkHistoryItem clock1 w.name payload.event false w.url
              (some responseTime) (some e)],
          warnings := [exhaustedWarning w.name maxRetries],
          logs := [attemptFailLog attempt maxRetries w.name e],
          clock := clock1, outcome := .error e }
      else
        let delay := 2 ^ attempt * 1000
        let rest :=
          deliveryLoop w payload env locale maxRetries timeout startTime
            fuel (attempt + 1) (clock1 + delay)
        { requests := req :: rest.requests, attempts := rest.attempts + 1,
          delays := delay :: rest.delays, recorded := rest.recorded,
          warnings := rest.warnings,
          logs := attemptFailLog attempt maxRetries w.name e :: rest.logs,
          clock := rest.clock, outcome := rest.outcome }

/-- `sendToWebhook` (lines 185-235). -/
def sendToWebhook (w : WebhookConfig) (payload : WebhookPayload)
    (env : NetEnv) (locale : String → String) (startTime : Nat) :
    DeliveryResult :=
  deliveryLoop w payload env locale (effectiveRetries w.retryAttempts)
    (effectiveTimeout w.timeout) startTime
    (effectiveRetries w.retryAttempts) 1 startTime

/-- A settled promise outcome, as `Promise.allSettled` reports it. -/
inductive Settled where
  | fulfilled : Settled
  | rejected (e : String) : Settled
deriving DecidableEq

/-- Settle one delivery promise. -/
def settle : Except String Unit → Settled
  | .ok _ => .fulfilled
  | .error e => .rejected e

/-- Whether a settled outcome is a rejection. -/
def Settled.isRejected : Settled → Bool
  | .fulfilled => false
  | .rejected _ => true

/-- Everything observable about one `sendWebhook` call. -/
structure DispatchResult where
  deliveries : List (WebhookConfig × DeliveryResult)
  failures : Nat
  logs : List String

/-- Log line when no endpoint subscribes to the event (line 160). -/
def noWebhooksLog (event : WebhookEvent) : String :=
  "No webhooks configured for event: " ++ event.key

/-- Log line announcing the fan-out (line 164). -/
def sendingLog (event : WebhookEvent) (count : Nat) : String :=
  "Sending " ++ event.key ++ " webhook to " ++ toString count ++ " endpoint(s)"

/-- Log line counting failed deliveries (line 175). -/
def failCountLog (failures : Nat) : String :=
  toString failures ++ " webhook(s) failed to send"

/-- The subscription filter of `sendWebhook` (lines 155-157). -/
def relevantWebhooks (webhooks : List WebhookConfig) (event : WebhookEvent) :
    List WebhookConfig :=
  webhooks.filter (fun w => w.events.contains event)

/-- `sendWebhook` (lines 154-180). Per-endpoint rejections are converted to
settled values by `Promise.allSettled`; only an error escaping the
`try`/`catch` would surface to the caller, hence the `Except` result. -/
def sendWebhook (webhooks : List WebhookConfig) (event : WebhookEvent)
    (payload : WebhookPayload) (env : WebhookConfig → NetEnv)
    (locale : String → String) (startTime : Nat) :
    Except String DispatchResult :=
  let relevant := relevantWebhooks webhooks event
  if relevant.length = 0 then
    .ok { deliveries := [], failures := 0, logs := [noWebhooksLog event] }
  else
    let results :=
      relevant.map (fun w => (w, sendToWebhook w payload (env w) locale startTime))
    let settledResults := results.map (fun r => settle r.2.outcome)
    let failures := (settledResults.filter Settled.isRejected).length
    .ok
      { deliveries := results, failures := failures,
        logs :=
          [sendingLog event relevant.length] ++
            (if 0 < failures then [failCountLog failures] else []) }

/-- `loadConfiguration` (lines 94-105), success path: the working set keeps
exactly the enabled endpoints of the stored configuration (the storage-error
path yields `[]`). -/
def loadConfiguration (stored : List WebhookConfig) : List WebhookConfig :=
  stored.filter (fun w => w.enabled)

/-- `getWebhooks` (lines 562-564): a defensive copy of the working set. -/
def getWebhooks (webhooks : List WebhookConfig) : List WebhookConfig :=
  webhooks

/-- Total time the HTTP attempts starting at attempt index `a` spend on the
wire over `n` consecutive attempts. -/
def durSum (env : NetEnv) (a : Nat) : Nat → Nat
  | 0 => 0
  | n + 1 => env.duration a + durSum env (a + 1) n

/-- The backoff delays (in ms) scheduled after `n` consecutive failed
attempts starting at attempt index `a`: `2^a*1000, 2^(a+1)*1000, ...`. -/
def backoffList (a : Nat) : Nat → List Nat
  | 0 => []
  | n + 1 => 2 ^ a * 1000 :: backoffList (a + 1) n

/-- Total backoff time over `n` delays starting at attempt index `a`. -/
def backoffSum (a n : Nat) : Nat :=
  (backoffList a n).sum

/-- The per-attempt failure log lines for `n` consecutive failed attempts
starting at attempt index `a`. -/
def failLogList (maxRetries : Nat) (name : String) (err : Nat → String)
    (a : Nat) : Nat → List String
  | 0 => []
  | n + 1 => attemptFailLog a maxRetries name (err a) ::
      failLogList maxRetries name err (a + 1) n

/-- Modelled from the spec: the property the spec asserts of custom headers
(`endpoint.customHeaders` merged into the HTTP request). The source's
`WebhookConfig` carries no such field, so the claimed mapping is supplied
separately here for comparison with the request the code actually builds. -/
def specCustomHeadersMerged (customHeaders : List (String × String))
    (req : RequestOptions) : Prop :=
  ∀ h ∈ customHeaders, h ∈ req.headers

/-- A concrete locale environment for witnesses. -/
def idLocale : String → String := fun s => s

/-- The Scenario A pull request: AI-generated with model GPT-4o. -/
def scenarioAPr : PullRequestInfo :=
  { id := "test-123", title := "Add retry logic",
    description := "This adds retry logic.",
    url := "https://example.com/pr/1", author := "Avery",
    sourceBranch := "feature/retry", targetBranch := "main",
    repository := "team/project", aiGenerated := true,
    modelUsed := some "GPT-4o", filesChanged := 5, commits := 3 }

/-- The Scenario A payload: a `created` event for `scenarioAPr`. -/
def scenarioAPayload : WebhookPayload :=
  { event := .pr_created, pullRequest := scenarioAPr,
    timestamp := "2025-06-01T00:00:00Z",
    metadata := ⟨"1.0.0", "ws", "1.90.0"⟩ }

/-- A payload that is AI-generated but carries no model name. -/
def noModelPayload : WebhookPayload :=
  { event := .pr_created,
    pullRequest :=
      { scenarioAPr with aiGenerated := true, modelUsed := none },
    timestamp := "2025-06-01T00:00:00Z",
    metadata := ⟨"1.0.0", "ws", "1.90.0"⟩ }

/-- A payload with a whitespace-only description, no URL, and no AI flag. -/
def barePayload : WebhookPayload :=
  { event := .pr_closed,
    pullRequest :=
      { scenarioAPr with
        description := "   ",
        url := "",
        aiGenerated := false,
        modelUsed := none },
    timestamp := "2025-06-01T00:00:00Z",
    metadata := ⟨"1.0.0", "ws", "1.90.0"⟩ }

/-- A concrete endpoint with three configured retries. -/
def retryEndpoint : WebhookConfig :=
  { name := "T", url := "https://example.com/hook", enabled := true,
    events := [.pr_created], platform := "generic",
    retryAttempts := some 3, timeout := some 100 }

/-- A concrete endpoint leaving `retryAttempts` absent and `timeout` zero. -/
def defaultedEndpoint : WebhookConfig :=
  { name := "D", url := "https://example.com/hook2", enabled := true,
    events := [.pr_created], platform := "generic",
    retryAttempts := none, timeout := some 0 }

/-- A concrete endpoint not subscribed to `pr_created`. -/
def mergedOnlyEndpoint : WebhookConfig :=
  { name := "M", url := "https://example.com/hook3", enabled := true,
    events := [.pr_merged], platform := "teams",
    retryAttempts := some 1, timeout := some 100 }

/-- A concrete disabled endpoint subscribed to everything. -/
def disabledEndpoint : WebhookConfig :=
  { name := "X", url := "https://example.com/hook4", enabled := false,
    events := [.pr_created, .pr_updated, .pr_merged, .pr_closed],
    platform := "teams", retryAttempts := some 1, timeout := some 100 }

/-- A network oracle whose target refuses every attempt. -/
def envAlwaysFail : NetEnv :=
  { outcome := fun _ => .error "connection refused",
    duration := fun _ => 5 }

/-- A network oracle that succeeds on every attempt. -/
def envAlwaysOk : NetEnv :=
  { outcome := fun _ => .ok (), duration := fun _ => 5 }

/-- A network oracle that fails attempt 1 and succeeds from attempt 2 on. -/
def envOkSecond : NetEnv :=
  { outcome := fun n => if 2 ≤ n then .ok () else .error "boom",
    duration := fun _ => 7 }

/-- A concrete history entry for the history-bound witness. -/
def sampleHistoryItem : WebhookHistoryItem :=
  mkHistoryItem 0 "T" .pr_created true "https://example.com/hook" (some 5) none

/-! Helper lemmas. -/

/-- Capping a capped prepend: `addHistoryEntry` always equals a 100-capped
cons. -/
theorem addHistoryEntry_eq_take (h : List WebhookHistoryItem)
    (i : WebhookHistoryItem) :
    addHistoryEntry h i = (i :: h).take 100 := by
  unfold addHistoryEntry
  dsimp only
  split
  · rfl
  · next hle => exact (List.take_of_length_le (by omega)).symm

/-- A nonempty string has positive length. -/
theorem length_pos_of_ne_empty (s : String) (h : s ≠ "") : 0 < s.length := by
  cases s with
  | mk data =>
    cases data with
    | nil => exact absurd rfl h
    | cons c cs => simp [String.length]

/-- Taking `n` absorbs an inner `take n` on the appended tail. -/
theorem take_append_take {α : Type} (n : Nat) (A B : List α) :
    (A ++ B.take n).take n = (A ++ B).take n := by
  rw [List.take_append_eq_append_take, List.take_append_eq_append_take,
    List.take_take, Nat.min_eq_left (by omega)]

/-- Folding insertions through the capped history from a small start yields
the 100 most recent entries, most-recent-first. -/
theorem foldl_addHistoryEntry :
    ∀ (l h : List WebhookHistoryItem), h.length ≤ 100 →
      l.foldl addHistoryEntry h = (l.reverse ++ h).take 100
  | [], h, hle => by
    simpa using (List.take_of_length_le (by simpa using hle)).symm
  | x :: xs, h, _hle => by
    rw [List.foldl_cons, addHistoryEntry_eq_take,
      foldl_addHistoryEntry xs ((x :: h).take 100) (by simp),
      take_append_take, List.reverse_cons, List.append_assoc]
    rfl

/-- Full characterization of one `sendWebhook` call: it returns normally,
delivers to exactly the subscribed endpoints, counts rejected deliveries,
and logs the failure count when it is positive. -/
theorem sendWebhook_spec (webhooks : List WebhookConfig)
    (event : WebhookEvent) (payload : WebhookPayload)
    (env : WebhookConfig → NetEnv) (locale : String → String) (t0 : Nat) :
    ∃ r, sendWebhook webhooks event payload env locale t0 = .ok r
      ∧ r.deliveries = (relevantWebhooks webhooks event).map
          (fun w => (w, sendToWebhook w payload (env w) locale t0))
      ∧ r.failures = (relevantWebhooks webhooks event).countP
          (fun w => (settle (sendToWebhook w payload (env w) locale t0).outcome).isRejected)
      ∧ (0 < r.failures → failCountLog r.failures ∈ r.logs) := by
  by_cases hlen : (relevantWebhooks webhooks event).length = 0
  · have hrel : relevantWebhooks webhooks event = [] :=
      List.length_eq_zero.mp hlen
    refine ⟨{ deliveries := [], failures := 0, logs := [noWebhooksLog event] },
      ?_, by simp [hrel], by simp [hrel], by simp⟩
    simp only [sendWebhook, if_pos hlen]
  · have hok : sendWebhook webhooks event payload env locale t0 = .ok
        { deliveries := (relevantWebhooks webhooks event).map
            (fun w => (w, sendToWebhook w payload (env w) locale t0)),
          failures := ((((relevantWebhooks webhooks event).map
              (fun w => (w, sendToWebhook w payload (env w) locale t0))).map
              (fun r => settle r.2.outcome)).filter Settled.isRejected).length,
          logs := [sendingLog event (relevantWebhooks webhooks event).length] ++
            (if 0 < ((((relevantWebhooks webhooks event).map
                  (fun w => (w, sendToWebhook w payload (env w) locale t0))).map
                  (fun r => settle r.2.outcome)).filter Settled.isRejected).length
             then [failCountLog ((((relevantWebhooks webhooks event).map
                  (fun w => (w, sendToWebhook w payload (env w) locale t0))).map
                  (fun r => settle r.2.outcome)).filter Settled.isRejected).length]
             else []) } := by
      simp only [sendWebhook, if_neg hlen]
    have hcount : ((((relevantWebhooks webhooks event).map
          (fun w => (w, sendToWebhook w payload (env w) locale t0))).map
          (fun r => settle r.2.outcome)).filter Settled.isRejected).length
        = (relevantWebhooks webhooks event).countP
          (fun w => (settle (sendToWebhook w payload (env w) locale t0).outcome).isRejected) := by
      rw [List.map_map, ← List.countP_eq_length_filter, List.countP_map]
      rfl
    refine ⟨_, hok, rfl, hcount, ?_⟩
    intro hpos
    rw [List.map_map] at hpos
    simp [hpos]

/-! Claim theorems. -/

/-- Claim C1: for every event kind and payload and any mix of per-endpoint
delivery outcomes, `sendWebhook` never raises: it settles all per-endpoint
deliveries, counts the failures, logs that count when nonzero, and returns
normally. -/
theorem dispatch_never_raises (webhooks : List WebhookConfig)
    (event : WebhookEvent) (payload : WebhookPayload)
    (env : WebhookConfig → NetEnv) (locale : String → String) (t0 : Nat) :
    ∃ r, sendWebhook webhooks event payload env locale t0 = .ok r
      ∧ r.deliveries = (relevantWebhooks webhooks event).map
          (fun w => (w, sendToWebhook w payload (env w) locale t0))
      ∧ r.failures = (relevantWebhooks webhooks event).countP
          (fun w => (settle (sendToWebhook w payload (env w) locale t0).outcome).isRejected)
      ∧ (0 < r.failures → failCountLog r.failures ∈ r.logs) :=
  sendWebhook_spec webhooks event payload env locale t0

/-- Witness for C1: a concrete dispatch in which every endpoint exhausts
its retries still returns normally. -/
theorem dispatch_never_raises_witness :
    ∃ r, sendWebhook [retryEndpoint] .pr_created scenarioAPayload
        (fun _ => envAlwaysFail) idLocale 0 = .ok r
      ∧ r.deliveries = (relevantWebhooks [retryEndpoint] .pr_created).map
          (fun w => (w, sendToWebhook w scenarioAPayload envAlwaysFail idLocale 0))
      ∧ r.failures = (relevantWebhooks [retryEndpoint] .pr_created).countP
          (fun w => (settle (sendToWebhook w scenarioAPayload envAlwaysFail idLocale 0).outcome).isRejected)
      ∧ (0 < r.failures → failCountLog r.failures ∈ r.logs) :=
  dispatch_never_raises [retryEndpoint] .pr_created scenarioAPayload
    (fun _ => envAlwaysFail) idLocale 0

/-- Claim C7: dispatch over the loaded working set targets exactly the
stored endpoints that are enabled and subscribed to the event kind; the
working set (and the list operation) keeps exactly the enabled endpoints. -/
theorem dispatch_selects_enabled_subscribed (stored : List WebhookConfig)
    (event : WebhookEvent) (payload : WebhookPayload)
    (env : WebhookConfig → NetEnv) (locale : String → String) (t0 : Nat) :
    ∃ r, sendWebhook (loadConfiguration stored) event payload env locale t0 = .ok r
      ∧ r.deliveries.map Prod.fst
          = stored.filter (fun w => w.enabled && w.events.contains event)
      ∧ getWebhooks (loadConfiguration stored)
          = stored.filter (fun w => w.enabled) := by
  obtain ⟨r, hok, hdel, -, -⟩ :=
    sendWebhook_spec (loadConfiguration stored) event payload env locale t0
  refine ⟨r, hok, ?_, rfl⟩
  rw [hdel, List.map_map]
  have hmap : (Prod.fst ∘ fun w => (w, sendToWebhook w payload (env w) locale t0))
      = (id : WebhookConfig → WebhookConfig) := rfl
  rw [hmap, List.map_id]
  unfold relevantWebhooks loadConfiguration
  rw [List.filter_filter]
  exact List.filter_congr (fun a _ => by rw [Bool.and_comm])

/-- Witness for C7: a disabled endpoint and an endpoint subscribed only to
`pr_merged` are both excluded from a `pr_created` dispatch. -/
theorem dispatch_selects_enabled_subscribed_witness :
    ∃ r, sendWebhook
        (loadConfiguration [retryEndpoint, mergedOnlyEndpoint, disabledEndpoint])
        .pr_created scenarioAPayload (fun _ => envAlwaysOk) idLocale 0 = .ok r
      ∧ r.deliveries.map Prod.fst
          = [retryEndpoint, mergedOnlyEndpoint, disabledEndpoint].filter
              (fun w => w.enabled && w.events.contains WebhookEvent.pr_created)
      ∧ getWebhooks
          (loadConfiguration [retryEndpoint, mergedOnlyEndpoint, disabledEndpoint])
          = [retryEndpoint, mergedOnlyEndpoint, disabledEndpoint].filter
              (fun w => w.enabled) :=
  dispatch_selects_enabled_subscribed
    [retryEndpoint, mergedOnlyEndpoint, disabledEndpoint]
    .pr_created scenarioAPayload (fun _ => envAlwaysOk) idLocale 0

/-- Claim C4: the history log is bounded: insertion prepends, insertion at
capacity keeps exactly 100 entries, and after 150 insertions into an empty
log exactly the 100 most recent entries remain, most-recent-first. -/
theorem history_bound (items : List WebhookHistoryItem)
    (h150 : items.length = 150) :
    (items.foldl addHistoryEntry []).length = 100
    ∧ items.foldl addHistoryEntry [] = (items.drop 50).reverse
    ∧ (∀ h i, (addHistoryEntry h i).head? = some i)
    ∧ (∀ h i, 100 ≤ h.length → (addHistoryEntry h i).length = 100) := by
  have hfold := foldl_addHistoryEntry items [] (by simp)
  rw [List.append_nil] at hfold
  have htake : items.reverse.take 100 = (items.drop 50).reverse := by
    rw [List.take_reverse, h150]
  refine ⟨?_, ?_, ?_, ?_⟩
  · rw [hfold, List.length_take, List.length_reverse, h150]
    omega
  · rw [hfold, htake]
  · intro h i
    rw [addHistoryEntry_eq_take,
      show (100 : Nat) = 99 + 1 from rfl, List.take_succ_cons]
    rfl
  · intro h i hge
    rw [addHistoryEntry_eq_take, List.length_take]
    simp
    omega

/-- Witness for C4: inserting 150 concrete entries leaves exactly the 100
most recent, most-recent-first. -/
theorem history_bound_witness :
    ((List.replicate 150 sampleHistoryItem).foldl addHistoryEntry []).length = 100
    ∧ (List.replicate 150 sampleHistoryItem).foldl addHistoryEntry []
        = ((List.replicate 150 sampleHistoryItem).drop 50).reverse := by
  have h := history_bound (List.replicate 150 sampleHistoryItem) (by simp)
  exact ⟨h.1, h.2.1⟩

/-- Counterexample to claim C5 as stated: a payload whose description is
AI-generated but carries no model name renders a Teams card with no
AI-generated fact at all. -/
theorem ai_fact_counterexample :
    noModelPayload.pullRequest.aiGenerated = true
    ∧ (createTeamsMessage idLocale noModelPayload).sections.all
        (fun s => s.facts.all (fun f => f.name != "🤖 AI Generated")) = true := by
  decide

/-- Claim C5 as amended: the AI fact appears exactly when the payload is
AI-generated and carries a truthy model name, in which case its value names
the model; the Scenario A card carries the fact with value `Yes (GPT-4o)`
and the fixed `created` theme color. -/
theorem ai_fact_condition (locale : String → String) (p : WebhookPayload) :
    ((createTeamsMessage locale p).sections.any
        (fun s => s.facts.any (fun f => f.name == "🤖 AI Generated"))
      = (p.pullRequest.aiGenerated && strOptTruthy p.pullRequest.modelUsed))
    ∧ (∀ m, p.pullRequest.modelUsed = some m → m ≠ "" →
        p.pullRequest.aiGenerated = true →
        ∃ s ∈ (createTeamsMessage locale p).sections,
          TeamsFact.mk "🤖 AI Generated" ("Yes (" ++ m ++ ")") ∈ s.facts)
    ∧ (createTeamsMessage idLocale scenarioAPayload).themeColor
        = teamsColor .pr_created
    ∧ teamsColor .pr_created = "0078d4"
    ∧ (∃ s ∈ (createTeamsMessage idLocale scenarioAPayload).sections,
        TeamsFact.mk "🤖 AI Generated" "Yes (GPT-4o)" ∈ s.facts) := by
  refine ⟨?_, ?_, rfl, rfl, by decide⟩
  · unfold createTeamsMessage
    dsimp only
    by_cases hc :
        (p.pullRequest.aiGenerated && strOptTruthy p.pullRequest.modelUsed) = true
    · rw [if_pos hc, hc]
      by_cases hdesc : p.pullRequest.description ≠ ""
          ∧ 0 < (jsTrim p.pullRequest.description).length
      · rw [if_pos hdesc]
        simp
      · rw [if_neg hdesc]
        simp
    · have hcne :
          ¬(p.pullRequest.aiGenerated && strOptTruthy p.pullRequest.modelUsed) = true :=
        hc
      rw [Bool.not_eq_true] at hc
      rw [if_neg hcne, hc]
      by_cases hdesc : p.pullRequest.description ≠ ""
          ∧ 0 < (jsTrim p.pullRequest.description).length
      · rw [if_pos hdesc]
        simp
      · rw [if_neg hdesc]
        simp
  · intro m hm hne hai
    have hco : strOptTruthy p.pullRequest.modelUsed = true := by
      rw [hm]
      simp [strOptTruthy, hne]
    unfold createTeamsMessage
    dsimp only
    rw [hai, hco]
    simp only [Bool.and_self, if_true]
    split
    · exact ⟨_, List.mem_append_left _ (List.mem_singleton.mpr rfl),
        by simp [hm]⟩
    · exact ⟨_, List.mem_singleton.mpr rfl, by simp [hm]⟩

/-- Witness for C5 (amended): the Scenario A card carries the AI fact with
value `Yes (GPT-4o)`. -/
theorem ai_fact_condition_witness :
    ∃ s ∈ (createTeamsMessage idLocale scenarioAPayload).sections,
      TeamsFact.mk "🤖 AI Generated" "Yes (GPT-4o)" ∈ s.facts :=
  (ai_fact_condition idLocale scenarioAPayload).2.2.2.2

/-- Claim C8: with a whitespace-only description, empty URL and no AI flag,
the Teams card has one section, no action link and no AI fact; and any
description longer than 300 characters with real content is truncated to
its first 300 characters with an ellipsis. -/
theorem render_degradation (locale : String → String) (p : WebhookPayload)
    (hd : jsTrim p.pullRequest.description = "")
    (hu : p.pullRequest.url = "")
    (hai : p.pullRequest.aiGenerated = false) :
    ((createTeamsMessage locale p).sections.length = 1
     ∧ (createTeamsMessage locale p).potentialAction = none
     ∧ (createTeamsMessage locale p).sections.all
         (fun s => s.facts.all (fun f => f.name != "🤖 AI Generated")) = true)
    ∧ ∀ (locale2 : String → String) (q : WebhookPayload),
        300 < q.pullRequest.description.length →
        jsTrim q.pullRequest.description ≠ "" →
        ∃ s ∈ (createTeamsMessage locale2 q).sections,
          s.activityTitle = "📋 Description"
          ∧ s.activitySubtitle
              = some (q.pullRequest.description.take 300 ++ "...") := by
  constructor
  · unfold createTeamsMessage
    simp [hd, hu, hai]
  · intro locale2 q hlen htrim
    have hne : q.pullRequest.description ≠ "" := by
      intro h
      rw [h] at hlen
      simp at hlen
    have htl : 0 < (jsTrim q.pullRequest.description).length :=
      length_pos_of_ne_empty _ htrim
    unfold createTeamsMessage
    dsimp only
    rw [if_pos ⟨hne, htl⟩, if_pos hlen]
    exact ⟨_, List.mem_append_right _ (List.mem_singleton.mpr rfl), rfl, rfl⟩

/-- Witness for C8: the bare payload renders to a single-section card with
no action link. -/
theorem render_degradation_witness :
    (createTeamsMessage idLocale barePayload).sections.length = 1
    ∧ (createTeamsMessage idLocale barePayload).potentialAction = none := by
  have h := render_degradation idLocale barePayload (by decide) rfl rfl
  exact ⟨h.1.1, h.1.2.1⟩

/-- Claim C9: body selection on any platform kind other than the three
known ones resolves to the generic passthrough, the serialized raw
payload. -/
theorem generic_platform_fallback (platform : String)
    (locale : String → String) (payload : WebhookPayload)
    (h1 : platform ≠ "teams") (h2 : platform ≠ "slack")
    (h3 : platform ≠ "discord") :
    bodyFor platform locale payload = (payloadJson payload).render := by
  unfold bodyFor
  rw [if_neg h1, if_neg h2, if_neg h3]

/-- Witness for C9: the `generic` platform kind takes the passthrough. -/
theorem generic_platform_fallback_witness :
    bodyFor "generic" idLocale scenarioAPayload
      = (payloadJson scenarioAPayload).render :=
  generic_platform_fallback "generic" idLocale scenarioAPayload
    (by decide) (by decide) (by decide)

/-- Claim C3 against the code: every request is a POST with JSON content
type bounded by the given timeout, but its header list is exactly the three
fixed entries — the custom headers documented in the repository's own
configuration schema are never merged in. -/
theorem headers_fixed_never_merged :
    (∀ url body timeout,
        (sendHttpRequestOptions url body timeout).method = "POST"
        ∧ ("Content-Type", "application/json")
            ∈ (sendHttpRequestOptions url body timeout).headers
        ∧ (sendHttpRequestOptions url body timeout).timeout = timeout
        ∧ (sendHttpRequestOptions url body timeout).headers.map Prod.fst
            = ["Content-Type", "Content-Length", "User-Agent"])
    ∧ ¬ specCustomHeadersMerged
        [("Authorization", "Bearer TOKEN"), ("X-Custom-Header", "value")]
        (sendHttpRequestOptions "https://example.com/hook" "body" 10000) := by
  constructor
  · intro url body timeout
    exact ⟨rfl, by simp [sendHttpRequestOptions], rfl, rfl⟩
  · intro hmerge
    have hmem := hmerge ("Authorization", "Bearer TOKEN") (by simp)
    simp [sendHttpRequestOptions] at hmem

/-- Witness for C3: the concrete request built for the documented
custom-header configuration carries only the three fixed headers. -/
theorem headers_fixed_never_merged_witness :
    (sendHttpRequestOptions "https://example.com/hook" "body" 10000).headers.map
        Prod.fst
      = ["Content-Type", "Content-Length", "User-Agent"] :=
  (headers_fixed_never_merged.1 "https://example.com/hook" "body" 10000).2.2.2

/-- One-step unfolding of the retry loop on a failed, non-final attempt. -/
theorem deliveryLoop_fail_step (w : WebhookConfig) (p : WebhookPayload)
    (env : NetEnv) (locale : String → String) (maxR timeout t0 : Nat)
    (fuel attempt clock : Nat) (e : String)
    (he : env.outcome attempt = .error e) (hne : attempt ≠ maxR) :
    deliveryLoop w p env locale maxR timeout t0 (fuel + 1) attempt clock =
      (let rest := deliveryLoop w p env locale maxR timeout t0 fuel
          (attempt + 1) (clock + env.duration attempt + 2 ^ attempt * 1000)
       { requests := sendHttpRequestOptions w.url
            (bodyFor w.platform locale p) timeout :: rest.requests,
         attempts := rest.attempts + 1,
         delays := 2 ^ attempt * 1000 :: rest.delays,
         recorded := rest.recorded,
         warnings := rest.warnings,
         logs := attemptFailLog attempt maxR w.name e :: rest.logs,
         clock := rest.clock,
         outcome := rest.outcome }) := by
  simp only [deliveryLoop, he]
  rw [if_neg hne]

/-- One-step unfolding of the retry loop on a failed final attempt. -/
theorem deliveryLoop_final_fail (w : WebhookConfig) (p : WebhookPayload)
    (env : NetEnv) (locale : String → String) (maxR timeout t0 : Nat)
    (fuel clock : Nat) (e : String) (he : env.outcome maxR = .error e) :
    deliveryLoop w p env locale maxR timeout t0 (fuel + 1) maxR clock =
      { requests := [sendHttpRequestOptions w.url
          (bodyFor w.platform locale p) timeout],
        attempts := 1,
        delays := [],
        recorded := [mkHistoryItem (clock + env.duration maxR) w.name p.event
          false w.url (some (clock + env.duration maxR - t0)) (some e)],
        warnings := [exhaustedWarning w.name maxR],
        logs := [attemptFailLog maxR maxR w.name e],
        clock := clock + env.duration maxR,
        outcome := .error e } := by
  simp only [deliveryLoop, he]
  simp

/-- One-step unfolding of the retry loop on a successful attempt. -/
theorem deliveryLoop_success_step (w : WebhookConfig) (p : WebhookPayload)
    (env : NetEnv) (locale : String → String) (maxR timeout t0 : Nat)
    (fuel attempt clock : Nat) (he : env.outcome attempt = .ok ()) :
    deliveryLoop w p env locale maxR timeout t0 (fuel + 1) attempt clock =
      { requests := [sendHttpRequestOptions w.url
          (bodyFor w.platform locale p) timeout],
        attempts := 1,
        delays := [],
        recorded := [mkHistoryItem (clock + env.duration attempt) w.name p.event
          true w.url (some (clock + env.duration attempt - t0)) none],
        warnings := [],
        logs := [successLog w.name attempt (clock + env.duration attempt - t0)],
        clock := clock + env.duration attempt,
        outcome := .ok () } := by
  simp only [deliveryLoop, he]

/-- Characterization of the retry loop when every attempt fails: entered at
attempt index `attempt` with `k + 1` iterations left reaching exactly
`maxR`, it performs all remaining attempts, schedules the exponential
backoffs, records exactly one failed entry carrying the final error and the
cumulative latency since `t0`, and rethrows the final error. -/
theorem deliveryLoop_allFail (w : WebhookConfig) (p : WebhookPayload)
    (env : NetEnv) (locale : String → String) (maxR timeout t0 : Nat)
    (err : Nat → String) (hf : ∀ n, env.outcome n = .error (err n)) :
    ∀ k attempt clock, attempt + k = maxR →
      deliveryLoop w p env locale maxR timeout t0 (k + 1) attempt clock =
        { requests := List.replicate (k + 1) (sendHttpRequestOptions w.url
            (bodyFor w.platform locale p) timeout),
          attempts := k + 1,
          delays := backoffList attempt k,
          recorded := [mkHistoryItem
            (clock + durSum env attempt (k + 1) + backoffSum attempt k)
            w.name p.event false w.url
            (some (clock + durSum env attempt (k + 1) + backoffSum attempt k - t0))
            (some (err maxR))],
          warnings := [exhaustedWarning w.name maxR],
          logs := failLogList maxR w.name err attempt (k + 1),
          clock := clock + durSum env attempt (k + 1) + backoffSum attempt k,
          outcome := .error (err maxR) } := by
  intro k
  induction k with
  | zero =>
    intro attempt clock h
    have ha : attempt = maxR := by omega
    subst ha
    rw [deliveryLoop_final_fail w p env locale attempt timeout t0 0 clock
      (err attempt) (hf attempt)]
    simp [durSum, backoffSum, backoffList, failLogList]
  | succ k ih =>
    intro attempt clock h
    have hne : attempt ≠ maxR := by omega
    rw [deliveryLoop_fail_step w p env locale maxR timeout t0 (k + 1) attempt
      clock (err attempt) (hf attempt) hne]
    rw [ih (attempt + 1) (clock + env.duration attempt + 2 ^ attempt * 1000)
      (by omega)]
    dsimp only
    have hT : clock + env.duration attempt + 2 ^ attempt * 1000
        + durSum env (attempt + 1) (k + 1) + backoffSum (attempt + 1) k
        = clock + durSum env attempt (k + 1 + 1) + backoffSum attempt (k + 1) := by
      simp only [durSum, backoffSum, backoffList, List.sum_cons]
      omega
    rw [hT]
    simp [backoffList, failLogList, List.replicate_succ]

/-- Characterization of the retry loop when the first `d` attempts starting
at `attempt` fail and attempt `K = attempt + d` succeeds, with enough fuel
for the configured maximum: exactly `d + 1` attempts occur and one
successful entry is recorded with cumulative latency since `t0`. -/
theorem deliveryLoop_succeedAt (w : WebhookConfig) (p : WebhookPayload)
    (env : NetEnv) (locale : String → String) (maxR timeout t0 K : Nat)
    (err : Nat → String)
    (hf : ∀ n, n < K → env.outcome n = .error (err n))
    (hs : env.outcome K = .ok ())
    (hK : K ≤ maxR) :
    ∀ d attempt clock fuel, attempt + d = K → attempt + fuel = maxR + 1 →
      deliveryLoop w p env locale maxR timeout t0 fuel attempt clock =
        { requests := List.replicate (d + 1) (sendHttpRequestOptions w.url
            (bodyFor w.platform locale p) timeout),
          attempts := d + 1,
          delays := backoffList attempt d,
          recorded := [mkHistoryItem
            (clock + durSum env attempt (d + 1) + backoffSum attempt d)
            w.name p.event true w.url
            (some (clock + durSum env attempt (d + 1) + backoffSum attempt d - t0))
            none],
          warnings := [],
          logs := failLogList maxR w.name err attempt d
            ++ [successLog w.name K
                (clock + durSum env attempt (d + 1) + backoffSum attempt d - t0)],
          clock := clock + durSum env attempt (d + 1) + backoffSum attempt d,
          outcome := .ok () } := by
  intro d
  induction d with
  | zero =>
    intro attempt clock fuel h hfuel
    have ha : attempt = K := by omega
    subst ha
    obtain ⟨f, rfl⟩ : ∃ f, fuel = f + 1 := ⟨fuel - 1, by omega⟩
    rw [deliveryLoop_success_step w p env locale maxR timeout t0 f attempt
      clock hs]
    simp [durSum, backoffSum, backoffList, failLogList]
  | succ d ih =>
    intro attempt clock fuel h hfuel
    have hlt : attempt < K := by omega
    have hne : attempt ≠ maxR := by omega
    obtain ⟨f, rfl⟩ : ∃ f, fuel = f + 1 := ⟨fuel - 1, by omega⟩
    rw [deliveryLoop_fail_step w p env locale maxR timeout t0 f attempt clock
      (err attempt) (hf attempt hlt) hne]
    rw [ih (attempt + 1) (clock + env.duration attempt + 2 ^ attempt * 1000) f
      (by omega) (by omega)]
    dsimp only
    have hT : clock + env.duration attempt + 2 ^ attempt * 1000
        + durSum env (attempt + 1) (d + 1) + backoffSum (attempt + 1) d
        = clock + durSum env attempt (d + 1 + 1) + backoffSum attempt (d + 1) := by
      simp only [durSum, backoffSum, backoffList, List.sum_cons]
      omega
    rw [hT]
    simp [backoffList, failLogList, List.replicate_succ]

/-- Claim C2: with `retryAttempts = N ≥ 1` and a target failing every
attempt, exactly N attempts occur, the backoff delays are
`2^1, ..., 2^(N-1)` seconds, exactly one failed history entry is recorded
carrying the last error and the cumulative latency measured from the first
attempt's start, a user-visible warning is raised, and the final error is
rethrown. -/
theorem retry_exhaustion (w : WebhookConfig) (p : WebhookPayload)
    (env : NetEnv) (locale : String → String) (t0 : Nat) (err : Nat → String)
    (N : Nat) (hN : w.retryAttempts = some N) (hpos : 1 ≤ N)
    (hf : ∀ n, env.outcome n = .error (err n)) :
    (sendToWebhook w p env locale t0).attempts = N
    ∧ (sendToWebhook w p env locale t0).delays = backoffList 1 (N - 1)
    ∧ (sendToWebhook w p env locale t0).recorded
        = [mkHistoryItem (sendToWebhook w p env locale t0).clock w.name p.event
            false w.url (some ((sendToWebhook w p env locale t0).clock - t0))
            (some (err N))]
    ∧ (sendToWebhook w p env locale t0).clock
        = t0 + durSum env 1 N + backoffSum 1 (N - 1)
    ∧ (sendToWebhook w p env locale t0).warnings = [exhaustedWarning w.name N]
    ∧ (sendToWebhook w p env locale t0).outcome = .error (err N) := by
  obtain ⟨k, rfl⟩ : ∃ k, N = k + 1 := ⟨N - 1, by omega⟩
  have hmax : effectiveRetries w.retryAttempts = k + 1 := by
    rw [hN]
    rfl
  unfold sendToWebhook
  rw [hmax]
  rw [deliveryLoop_allFail w p env locale (k + 1) (effectiveTimeout w.timeout)
    t0 err hf k 1 t0 (by omega)]
  refine ⟨rfl, ?_, rfl, ?_, rfl, rfl⟩
  · simp
  · simp

/-- Witness for C2: three refused attempts against the concrete endpoint
produce three attempts, backoffs of 2 and 4 seconds, and the warning. -/
theorem retry_exhaustion_witness :
    (sendToWebhook retryEndpoint scenarioAPayload envAlwaysFail idLocale 0).attempts = 3
    ∧ (sendToWebhook retryEndpoint scenarioAPayload envAlwaysFail idLocale 0).delays
        = [2000, 4000]
    ∧ (sendToWebhook retryEndpoint scenarioAPayload envAlwaysFail idLocale 0).warnings
        = [exhaustedWarning "T" 3] := by
  have h := retry_exhaustion retryEndpoint scenarioAPayload envAlwaysFail
    idLocale 0 (fun _ => "connection refused") 3 rfl (by omega) (fun _ => rfl)
  refine ⟨h.1, ?_, ?_⟩
  · rw [h.2.1]
    rfl
  · exact h.2.2.2.2.1

/-- Claim C6: when attempt `K ≤ retryAttempts` succeeds after `K - 1`
failures, exactly `K` attempts occur, the call returns normally with no
warning, and exactly one successful history entry is recorded whose latency
is measured from the first attempt's start. -/
theorem early_success (w : WebhookConfig) (p : WebhookPayload) (env : NetEnv)
    (locale : String → String) (t0 : Nat) (K : Nat) (err : Nat → String)
    (hf : ∀ n, n < K → env.outcome n = .error (err n))
    (hs : env.outcome K = .ok ())
    (h1 : 1 ≤ K) (hK : K ≤ effectiveRetries w.retryAttempts) :
    (sendToWebhook w p env locale t0).attempts = K
    ∧ (sendToWebhook w p env locale t0).recorded
        = [mkHistoryItem (sendToWebhook w p env locale t0).clock w.name p.event
            true w.url (some ((sendToWebhook w p env locale t0).clock - t0))
            none]
    ∧ (sendToWebhook w p env locale t0).clock
        = t0 + durSum env 1 K + backoffSum 1 (K - 1)
    ∧ (sendToWebhook w p env locale t0).warnings = []
    ∧ (sendToWebhook w p env locale t0).outcome = .ok () := by
  obtain ⟨d, rfl⟩ : ∃ d, K = d + 1 := ⟨K - 1, by omega⟩
  unfold sendToWebhook
  rw [deliveryLoop_succeedAt w p env locale (effectiveRetries w.retryAttempts)
    (effectiveTimeout w.timeout) t0 (d + 1) err hf hs hK d 1 t0
    (effectiveRetries w.retryAttempts) (by omega) (by omega)]
  refine ⟨rfl, rfl, ?_, rfl, rfl⟩
  simp

/-- Witness for C6: a target failing once then succeeding yields exactly two
attempts, no warning, and a normal return. -/
theorem early_success_witness :
    (sendToWebhook retryEndpoint scenarioAPayload envOkSecond idLocale 0).attempts = 2
    ∧ (sendToWebhook retryEndpoint scenarioAPayload envOkSecond idLocale 0).warnings = []
    ∧ (sendToWebhook retryEndpoint scenarioAPayload envOkSecond idLocale 0).outcome
        = .ok () := by
  have h := early_success retryEndpoint scenarioAPayload envOkSecond idLocale 0
    2 (fun _ => "boom")
    (fun n hn => by simp [envOkSecond, Nat.not_le.mpr hn])
    rfl (by omega) (by decide)
  exact ⟨h.1, h.2.2.2.1, h.2.2.2.2⟩

/-- The effective retry count is always at least one. -/
theorem effectiveRetries_pos (o : Option Nat) : 1 ≤ effectiveRetries o := by
  rcases o with _ | (_ | n)
  · decide
  · decide
  · rw [show effectiveRetries (some (n + 1)) = n + 1 from rfl]
    omega

/-- Claim C10: absent or zero `retryAttempts` behaves as 3 (three attempts
occur against an always-failing target), and absent or zero `timeout`
bounds every issued request by 10000 ms. -/
theorem default_coercion (w : WebhookConfig) (p : WebhookPayload)
    (env : NetEnv) (locale : String → String) (t0 : Nat) (err : Nat → String)
    (hf : ∀ n, env.outcome n = .error (err n)) :
    ((w.retryAttempts = none ∨ w.retryAttempts = some 0) →
      (sendToWebhook w p env locale t0).attempts = 3)
    ∧ ((w.timeout = none ∨ w.timeout = some 0) →
      ∀ req ∈ (sendToWebhook w p env locale t0).requests, req.timeout = 10000) := by
  constructor
  · intro hr
    have hmax : effectiveRetries w.retryAttempts = 2 + 1 := by
      cases hr with
      | inl h => rw [h]; rfl
      | inr h => rw [h]; rfl
    unfold sendToWebhook
    rw [hmax]
    rw [deliveryLoop_allFail w p env locale (2 + 1)
      (effectiveTimeout w.timeout) t0 err hf 2 1 t0 (by omega)]
  · intro ht
    have htime : effectiveTimeout w.timeout = 10000 := by
      cases ht with
      | inl h => rw [h]; rfl
      | inr h => rw [h]; rfl
    obtain ⟨k, hk⟩ : ∃ k, effectiveRetries w.retryAttempts = k + 1 :=
      ⟨effectiveRetries w.retryAttempts - 1, by
        have := effectiveRetries_pos w.retryAttempts
        omega⟩
    unfold sendToWebhook
    rw [htime, hk]
    rw [deliveryLoop_allFail w p env locale (k + 1) 10000 t0 err hf k 1 t0
      (by omega)]
    intro req hreq
    rw [List.eq_of_mem_replicate hreq]
    rfl

/-- Witness for C10: an endpoint with absent retries makes exactly three
attempts against an always-failing target. -/
theorem default_coercion_witness :
    (sendToWebhook defaultedEndpoint scenarioAPayload envAlwaysFail idLocale 0).attempts = 3 :=
  (default_coercion defaultedEndpoint scenarioAPayload envAlwaysFail idLocale 0
    (fun _ => "connection refused") (fun _ => rfl)).1 (Or.inl rfl)

end WebhookSpec
